import Mathlib

/-!
# Verification of the MODI+ network firmware updater

A shallow embedding of `modi2_firmware_updater/core/network_updater.py`:
the CRC engine, the end-flash block builder, the bootloader protocol
loops (identify, warning wait, firmware-command exchange) and the
per-page update pipeline, together with theorems checking the
specification's claims against it.

The device side is modelled as a finite script of read results: each
`ReadEvent` is what one `wait_for_json` call returns (an already decoded
frame or an empty read) together with the `time.time()` value observed
right after the read.  An exhausted script models a device that stays
silent from that point on; each loop's base case returns what the Python
loop provably reaches in that situation (its timeout outcome).
-/

set_option maxRecDepth 600000

namespace ModiFw

/-! ## Bytes and little-endian integers -/

/-- `int.from_bytes(data, byteorder="little")` on a list of byte values
(`network_updater.py:662`). -/
def leNat : List Nat → Nat
  | [] => 0
  | b :: bs => b + 256 * leNat bs

/-- The little-endian byte extraction of `send_firmware_command`
(`network_updater.py:143-149`): the loop interleaves the CRC and
page-address bytes into one 8-byte buffer; extracting four low-first
bytes of one value is the per-field effect. -/
def leBytes4 (v : Nat) : List Nat :=
  [v &&& 0xFF, (v >>> 8) &&& 0xFF, (v >>> 16) &&& 0xFF, (v >>> 24) &&& 0xFF]

/-! ## CRC engine (`calc_crc32` / `calc_crc64`, lines 661-676) -/

/-- One iteration of the `for _ in range(32)` body of `calc_crc32`
(lines 664-669): shift left by one, xor the polynomial if bit 31 was
set, then `crc &= 0xFFFFFFFF`. -/
def crc32Round (crc : Nat) : Nat :=
  if crc &&& (1 <<< 31) ≠ 0 then ((crc <<< 1) ^^^ 0x4C11DB7) &&& 0xFFFFFFFF
  else (crc <<< 1) &&& 0xFFFFFFFF

/-- `calc_crc32(data, crc)` (lines 661-671). -/
def calc_crc32 (data : List Nat) (crc : Nat) : Nat :=
  crc32Round^[32] (crc ^^^ leNat data)

/-- `calc_crc64(data, checksum)` (lines 673-676): the 4-byte step on
`data[:4]`, then on `data[4:]`. -/
def calc_crc64 (data : List Nat) (checksum : Nat) : Nat :=
  calc_crc32 (data.drop 4) (calc_crc32 (data.take 4) checksum)

/-- The specification's wording of one CRC iteration (§4.C): if bit 31
was set, `crc ← (crc << 1) XOR 0x04C11DB7`, else `crc ← crc << 1`,
masking to 32 bits after each step. -/
def crc32SpecRound (crc : Nat) : Nat :=
  if Nat.testBit crc 31 then (crc * 2 ^^^ 0x04C11DB7) % 2 ^ 32 else crc * 2 % 2 ^ 32

/-- The specification's 4-byte CRC step: xor the accumulator with the
little-endian u32 of the chunk, then iterate `crc32SpecRound` 32 times. -/
def crc32Spec (data : List Nat) (crc : Nat) : Nat :=
  crc32SpecRound^[32] (crc ^^^ leNat data)

/-! ## Image geometry (`update_network_module`, lines 368-374) -/

/-- `page_size = 0x800` (line 368); `bin_begin = page_size` (line 373). -/
def pageSize : Nat := 0x800

/-- Modelled from the spec: `sys.getsizeof(bin_buffer)` (line 372) is a
Python-runtime call, not code of this repository.  §9 of the spec records
that it returns the allocated size of the buffer including object
overhead; a 64-bit CPython `bytes` object carries 33 bytes of overhead
beyond its payload. -/
def sysGetsizeofBytes (b : List Nat) : Nat := b.length + 33

/-- `bin_end = bin_size - ((bin_size - bin_begin) % page_size)`
(line 374), with Python's integer semantics: the remainder of a negative
number by a positive modulus is non-negative, so the computation is done
in `Int` and the (always non-negative) result converted back. -/
def binEndOf (binSize : Nat) : Nat :=
  ((binSize : Int) - (((binSize : Int) - (pageSize : Int)) % (pageSize : Int))).toNat

/-- The loop bound the source actually uses: `bin_size` comes from
`sys.getsizeof` of the loaded buffer (lines 372-374). -/
def binEndCode (buf : List Nat) : Nat := binEndOf (sysGetsizeofBytes buf)

/-- The claim's loop bound: the same formula applied to the exact file
length in bytes. -/
def binEndSpecExact (len : Nat) : Nat :=
  ((len : Int) - (((len : Int) - (pageSize : Int)) % (pageSize : Int))).toNat

/-! ## Version parsing and the end-flash block (lines 450-471) -/

/-- Python `str.split(".")` on a character list. -/
def splitDots : List Char → List (List Char)
  | [] => [[]]
  | c :: cs =>
    if c = '.' then [] :: splitDots cs
    else
      match splitDots cs with
      | [] => [[c]]
      | g :: gs => (c :: g) :: gs

/-- Python `int(...)` on a digit string. -/
def digitsToNat (cs : List Char) : Nat :=
  cs.foldl (fun a c => 10 * a + (c.toNat - 48)) 0

/-- Version-string parsing of lines 455-457: `lstrip("v")` (drop every
leading `v`), keep the part before the first `-`, split on `.` and read
each field as an integer.  (On a malformed field Python raises; no claim
exercises one.) -/
def parseVersionDigits (s : String) : List Nat :=
  (splitDots ((s.toList.dropWhile (· = 'v')).takeWhile (· ≠ '-'))).map digitsToNat

/-- Version packing of lines 458-462: `major << 13 | minor << 8 | patch`. -/
def packVersion (digits : List Nat) : Nat :=
  digits.getD 0 0 <<< 13 ||| digits.getD 1 0 <<< 8 ||| digits.getD 2 0

/-- The 16-byte end-flash block of lines 450-471: byte 0 is the verify
header (`0xFF` after an update error, else `0xAA`), bytes 6-7 the packed
version little-endian, bytes 12-15 the boot address `0x08009000`
little-endian, all other bytes zero (fresh `bytearray(16)`). -/
def buildEndFlashData (versionStr : String) (hasUpdateError : Bool) : List Nat :=
  let verifyHeader := if hasUpdateError then 0xFF else 0xAA
  let v := packVersion (parseVersionDigits versionStr)
  [verifyHeader, 0, 0, 0, 0, 0, v &&& 0xFF, (v >>> 8) &&& 0xFF,
   0, 0, 0, 0,
   (0x08009000 >>> 0) &&& 0xFF, (0x08009000 >>> 8) &&& 0xFF,
   (0x08009000 >>> 16) &&& 0xFF, (0x08009000 >>> 24) &&& 0xFF]

/-! ## Protocol data -/

/-- Module type classes derived from a uuid (§3 of the spec). -/
inductive ModuleType
  | network
  | camera
  | other
deriving DecidableEq

/-- A decoded incoming frame: command byte and decoded payload bytes. -/
structure Frame where
  c : Nat
  b : List Nat
deriving DecidableEq

/-- One `wait_for_json` outcome: the decoded frame (or an empty read)
and the `time.time()` value observed right after the read returns. -/
structure ReadEvent where
  time : Nat
  frame : Option Frame
deriving DecidableEq

/-- An outgoing packet as handed to `parse_message(cmd, sid, did, data)`;
the JSON serialisation itself is irrelevant to every claim. -/
structure Packet where
  cmd : Nat
  sid : Nat
  did : Nat
  data : List Nat
deriving DecidableEq

/-- Modelled from the spec: `unpack_data(b, (n1, n2))` lives in
`util/message_util.py`, which is not under src; §4.D gives the payload
layouts as little-endian fields of the stated widths. -/
def unpackData2 (b : List Nat) (n1 n2 : Nat) : Nat × Nat :=
  (leNat (b.take n1), leNat ((b.drop n1).take n2))

namespace Module

/-- Modelled from the spec: the `Module` state constants live in
`util/module_util.py`, which is not under src; their numeric values are
not given and no claim depends on them, so distinct placeholders are
used. -/
def UPDATE_FIRMWARE : Nat := 5

/-- Modelled from the spec: placeholder value, see `UPDATE_FIRMWARE`. -/
def UPDATE_FIRMWARE_READY : Nat := 6

/-- Modelled from the spec: placeholder value, see `UPDATE_FIRMWARE`. -/
def REBOOT : Nat := 7

/-- Modelled from the spec: placeholder value, see `UPDATE_FIRMWARE`. -/
def PNP_OFF : Nat := 1

end Module

/-- Firmware stream states (lines 19-26). -/
def NO_ERROR : Nat := 0

/-- `UPDATE_READY = 1` (line 20). -/
def UPDATE_READY : Nat := 1

/-- `WRITE_FAIL = 2` (line 21). -/
def WRITE_FAIL : Nat := 2

/-- `VERIFY_FAIL = 3` (line 22). -/
def VERIFY_FAIL : Nat := 3

/-- `CRC_ERROR = 4` (line 23). -/
def CRC_ERROR : Nat := 4

/-- `CRC_COMPLETE = 5` (line 24). -/
def CRC_COMPLETE : Nat := 5

/-- `ERASE_ERROR = 6` (line 25). -/
def ERASE_ERROR : Nat := 6

/-- `ERASE_COMPLETE = 7` (line 26). -/
def ERASE_COMPLETE : Nat := 7

/-- The per-worker state (`NetworkFirmwareUpdater` instance fields plus
the pending device script and a log of every sent packet).
`progressTrace` records every store to `self.progress`, in order; the
current progress is its last entry.  `networkId` is `None` in Python
until the assignment at lines 278-281 and is never read before it, so
the model keeps a plain `Nat` placeholder 0 until then. -/
structure Updater where
  events : List ReadEvent
  now : Nat
  sent : List Packet
  isOpen : Bool
  networkUuid : Option Nat
  networkVersion : Option String
  networkId : Nat
  isNetwork : Option Bool
  progressTrace : List Nat
  updateInProgress : Bool
  updateError : Int
  updateErrorMessage : String
  hasUpdateError : Bool
deriving DecidableEq

/-- The updater right after `__init__` (lines 28-62): port open,
`is_network = True`, `progress = 0`. -/
def initUpdater (events : List ReadEvent) (t0 : Nat) : Updater :=
  { events := events, now := t0, sent := [], isOpen := true,
    networkUuid := none, networkVersion := none, networkId := 0,
    isNetwork := some true, progressTrace := [0], updateInProgress := false,
    updateError := 0, updateErrorMessage := "", hasUpdateError := false }

/-- `self.write(send_pkt...)` guarded by `if self.is_open`
(e.g. lines 113-114). -/
def sendPkt (p : Packet) (st : Updater) : Updater :=
  if st.isOpen then { st with sent := st.sent ++ [p] } else st

/-- A store to `self.progress`. -/
def setProgress (p : Nat) (st : Updater) : Updater :=
  { st with progressTrace := st.progressTrace ++ [p] }

/-- `self.close()`. -/
def closePort (st : Updater) : Updater := { st with isOpen := false }

/-- `self.open(self.port)` (line 291). -/
def openPort (st : Updater) : Updater := { st with isOpen := true }

/-- `send_request_network_uuid` (lines 111-114). -/
def sendRequestNetworkUuid (st : Updater) : Updater :=
  sendPkt ⟨0x28, 0xFFF, 0xFFF, [0xFF, 0xFF]⟩ st

/-- `send_set_network_module_state` (lines 116-119). -/
def sendSetNetworkModuleState (did moduleState pnpState : Nat) (st : Updater) : Updater :=
  sendPkt ⟨0xA4, 0, did, [moduleState, pnpState]⟩ st

/-- `send_set_module_state` (lines 121-124). -/
def sendSetModuleState (did moduleState pnpState : Nat) (st : Updater) : Updater :=
  sendPkt ⟨0x09, 0, did, [moduleState, pnpState]⟩ st

/-- `send_firmware_command` (lines 126-153): `sid = (rot_scmd << 8) | 1`
with `rot_scmd = 2` for erase and `1` for crc; the 8 data bytes are the
CRC value and the page address, each little-endian. -/
def sendFirmwareCommand (operErase : Bool) (moduleId crcVal pageAddr : Nat)
    (st : Updater) : Updater :=
  let rotScmd := if operErase then 2 else 1
  sendPkt ⟨0x0D, (rotScmd <<< 8) ||| 1, moduleId, leBytes4 crcVal ++ leBytes4 pageAddr⟩ st

/-- `send_firmware_data` (lines 189-196). -/
def sendFirmwareData (moduleId seqNum : Nat) (binData : List Nat) (st : Updater) : Updater :=
  sendPkt ⟨0x0B, seqNum, moduleId, binData⟩ st

/-- The read loop of `receive_firmware_command_response` (lines 155-187):
an empty read, or any frame arriving more than 5 s after the call
started, fails; a `0x0C` frame decides by its stream state (byte 4 of the
payload per `unpack_data(b, (4, 1))`); every other frame or state is
skipped.  An exhausted script is a silent device, which `wait_for_json`
turns into an empty read. -/
def receiveLoopAux (initTime : Nat) : List ReadEvent → Updater → Bool × Updater
  | [], st => (false, st)
  | e :: es, st =>
    let st := { st with events := es, now := e.time }
    match e.frame with
    | none => (false, st)
    | some f =>
      if e.time - initTime > 5 then (false, st)
      else if f.c = 0x0C then
        let streamState := (unpackData2 f.b 4 1).2
        if streamState = CRC_ERROR ∨ streamState = ERASE_ERROR then (false, st)
        else if streamState = CRC_COMPLETE ∨ streamState = ERASE_COMPLETE then (true, st)
        else receiveLoopAux initTime es st
      else receiveLoopAux initTime es st

/-- `receive_firmware_command_response()` with its default 5 s timeout. -/
def receiveFirmwareCommandResponse (st : Updater) : Bool × Updater :=
  receiveLoopAux st.now st.events st

/-- The retry loop inside `set_firmware_command` (lines 201-209): while
the response fails, resend and re-await; `retry_count` is incremented
after each retransmission and the loop breaks once it exceeds
`max_retry = 5`, so up to six retransmissions follow the initial
attempt.  `k` counts the retransmissions still allowed. -/
def eraseRetryLoop (moduleId crcVal pageAddr : Nat) : Nat → Updater → Bool × Updater
  | 0, st => (false, st)
  | k + 1, st =>
    let st := sendFirmwareCommand true moduleId crcVal pageAddr st
    let r := receiveFirmwareCommandResponse st
    if r.1 then (true, r.2) else eraseRetryLoop moduleId crcVal pageAddr k r.2

/-- `set_firmware_command` (lines 198-210): one send-and-await, then,
only for the erase operation, the retry loop. -/
def setFirmwareCommand (operErase : Bool) (moduleId crcVal pageAddr : Nat)
    (st : Updater) : Bool × Updater :=
  let st := sendFirmwareCommand operErase moduleId crcVal pageAddr st
  let r := receiveFirmwareCommandResponse st
  if !r.1 && operErase then eraseRetryLoop moduleId crcVal pageAddr 6 r.2
  else r

/-- `set_firmware_data` (lines 212-214): send the chunk and fold it into
the running CRC. -/
def setFirmwareData (moduleId seqNum : Nat) (binData : List Nat) (checksum : Nat)
    (st : Updater) : Nat × Updater :=
  let st := sendFirmwareData moduleId seqNum binData st
  (calc_crc64 binData checksum, st)

/-- The module-version string of lines 93-98. -/
def versionString (v : Nat) : String :=
  toString ((v &&& 0xE000) >>> 13) ++ "." ++ toString ((v &&& 0x1F00) >>> 8)
    ++ "." ++ toString (v &&& 0xFF)

/-- The probe loop of `get_connected_module_info` (lines 70-109): send
the uuid request, read with a 3 s `wait_for_json`, give up once the
elapsed time exceeds 3 s (checked before the frame is examined), and
accept the first `0x05` or `0x0A` frame whose uuid belongs to a network
or camera module.  On an exhausted script the device is silent: one more
request goes out and the 3 s `wait_for_json` then drives the elapsed
time over the limit, so the loop returns its timeout triple
`(None, None, None)`. -/
def identifyLoopAux (moduleTypeOf : Nat → ModuleType) (initTime : Nat) :
    List ReadEvent → Updater → (Option Nat × Option String × Option Bool) × Updater
  | [], st => ((none, none, none), sendRequestNetworkUuid st)
  | e :: es, st =>
    let st := sendRequestNetworkUuid st
    let st := { st with events := es, now := e.time }
    if e.time - initTime > 3 then ((none, none, none), st)
    else
      match e.frame with
      | none => identifyLoopAux moduleTypeOf initTime es st
      | some f =>
        if f.c = 0x05 then
          let uuid := (unpackData2 f.b 6 2).1
          let ver := (unpackData2 f.b 6 2).2
          let mt := moduleTypeOf uuid
          if mt = ModuleType.network ∨ mt = ModuleType.camera then
            ((some uuid, some (versionString ver), some (decide (mt = ModuleType.network))), st)
          else identifyLoopAux moduleTypeOf initTime es st
        else if f.c = 0x0A then
          let uuid := (unpackData2 f.b 6 2).1
          let mt := moduleTypeOf uuid
          if mt = ModuleType.network ∨ mt = ModuleType.camera then
            ((some uuid, none, some (decide (mt = ModuleType.network))), st)
          else identifyLoopAux moduleTypeOf initTime es st
        else identifyLoopAux moduleTypeOf initTime es st

/-- `get_connected_module_info` (lines 70-109). -/
def getConnectedModuleInfo (moduleTypeOf : Nat → ModuleType) (st : Updater) :
    (Option Nat × Option String × Option Bool) × Updater :=
  identifyLoopAux moduleTypeOf st.now st.events st

/-- The warning-wait loop of `update_module_firmware` (lines 296-335):
empty reads bump `retry` (never reset) and the phase fails once it
exceeds `max_retry = 5`; a frame arriving more than 10 s after the phase
start also fails; a `0x0A` frame of a network or camera module adopts
the uuid if it is still unset (Python truthiness: `None` or `0`), fixes
`is_network`, answers a non-2 warning with the ready command and
succeeds on `warning_type == 2`.  On an exhausted script every further
read is empty, so `retry` exceeds 5 and the phase times out. -/
def warningLoopAux (moduleTypeOf : Nat → ModuleType) (initTime : Nat) :
    List ReadEvent → Nat → Updater → Bool × Updater
  | [], _, st => (true, st)
  | e :: es, retry, st =>
    let st := { st with events := es, now := e.time }
    match e.frame with
    | none =>
      if retry + 1 > 5 then (true, st)
      else warningLoopAux moduleTypeOf initTime es (retry + 1) st
    | some f =>
      if e.time - initTime > 10 then (true, st)
      else if f.c = 0x0A then
        let uuid := (unpackData2 f.b 6 1).1
        let warningType := (unpackData2 f.b 6 1).2
        let mt := moduleTypeOf uuid
        if mt = ModuleType.network ∨ mt = ModuleType.camera then
          let st :=
            if st.networkUuid = none ∨ st.networkUuid = some 0 then
              { st with networkUuid := some uuid, networkId := uuid &&& 0xFFF }
            else st
          let st := { st with isNetwork := some (decide (mt = ModuleType.network)) }
          if warningType ≠ 2 then
            let st := sendSetModuleState st.networkId Module.UPDATE_FIRMWARE_READY
              Module.PNP_OFF st
            warningLoopAux moduleTypeOf initTime es retry st
          else (false, st)
        else warningLoopAux moduleTypeOf initTime es retry st
      else warningLoopAux moduleTypeOf initTime es retry st

/-- The chunk loop of lines 416-423: 8-byte strides through the current
page, stopping once `page_begin + curr_ptr` reaches `bin_size`; the
sequence number is the chunk index within the page.  `i` is the next
chunk index and `k` the strides left (`page_size / 8 = 256` per page). -/
def writeChunksAux (moduleId pageBegin binSize : Nat) (currPage : List Nat) :
    Nat → Nat → Nat → Updater → Nat × Updater
  | 0, _, checksum, st => (checksum, st)
  | k + 1, i, checksum, st =>
    if pageBegin + 8 * i ≥ binSize then (checksum, st)
    else
      let currData := (currPage.drop (8 * i)).take 8
      let r := setFirmwareData moduleId i currData checksum st
      writeChunksAux moduleId pageBegin binSize currPage k (i + 1) r.1 r.2

/-- The erase-failure message of line 410 (and 549 with the camera
label). -/
def eraseFailMessage (label : String) (moduleId : Nat) : String :=
  label ++ " (" ++ toString moduleId ++ ") erase flash failed."

/-- The page loop of `update_network_module` / `update_camera_module`
(lines 383-445, duplicated at 522-584 up to the module label): publish
progress, skip all-zero pages, erase / write / crc with the two
per-page error counters (`erase_error_limit = crc_error_limit = 2`).
Returns the final state and `page_begin`; `none` only when the step
budget `fuel` is exhausted (call sites pass enough for their script). -/
def pageLoop (label : String) (moduleId binSize binEnd : Nat) (binBuffer : List Nat) :
    Nat → Nat → Nat → Nat → Updater → Option (Updater × Nat)
  | 0, _, _, _, _ => none
  | fuel + 1, pageBegin, eraseErrCount, crcErrCount, st =>
    if pageBegin < binEnd then
      let st := setProgress (100 * pageBegin / binEnd) st
      let currPage := (binBuffer.drop pageBegin).take pageSize
      if currPage.all (· == 0) then
        pageLoop label moduleId binSize binEnd binBuffer fuel (pageBegin + pageSize)
          eraseErrCount crcErrCount st
      else
        let r1 := setFirmwareCommand true moduleId 2 (0x08000000 + pageBegin + 0x8800) st
        let eraseOk := r1.1
        let st := r1.2
        if !eraseOk then
          if eraseErrCount + 1 > 2 then
            some ({ st with
                      hasUpdateError := true
                      updateErrorMessage := eraseFailMessage label moduleId }, pageBegin)
          else
            pageLoop label moduleId binSize binEnd binBuffer fuel pageBegin
              (eraseErrCount + 1) crcErrCount st
        else
          let r2 := writeChunksAux moduleId pageBegin binSize currPage 256 0 0 st
          let checksum := r2.1
          let st := r2.2
          let r3 := setFirmwareCommand false moduleId checksum
            (0x08000000 + pageBegin + 0x8800) st
          let crcOk := r3.1
          let st := r3.2
          if crcOk then
            pageLoop label moduleId binSize binEnd binBuffer fuel (pageBegin + pageSize) 0 0 st
          else if crcErrCount + 1 > 2 then
            some ({ st with
                      hasUpdateError := true
                      updateErrorMessage := "Check crc failed." }, pageBegin)
          else
            pageLoop label moduleId binSize binEnd binBuffer fuel pageBegin 0
              (crcErrCount + 1) st
    else some (st, pageBegin)

/-- The trailer write loop of lines 239-247: the block goes out in
8-byte chunks with sequence numbers 0, 1, …, accumulating the CRC.  `k`
is the number of chunks (`ceil(len/8)`, always 2 for the 16-byte
block). -/
def sendDataChunksAux (moduleId : Nat) (data : List Nat) :
    Nat → Nat → Nat → Updater → Nat × Updater
  | 0, _, checksum, st => (checksum, st)
  | k + 1, seq, checksum, st =>
    let chunk := (data.drop (8 * seq)).take 8
    let r := setFirmwareData moduleId seq chunk checksum st
    sendDataChunksAux moduleId data k (seq + 1) r.1 r.2

/-- The retry loop of `set_end_flash_data` (lines 216-267): erase the
trailer page at `0x0801F800` (the erase sub-command carries
`erase_page_num = 2` in the CRC field); on erase failure set
`update_error = -1` and message `"End erase error"` and return failure;
otherwise stream the 16 bytes and CRC-verify, repeating the whole
sequence on a CRC failure until `page_retry_count` exceeds 10
(`"End crc error"`).  `fuel` bounds the iterations; 12 always suffices
because `page_retry_count` grows on every repeat. -/
def endFlashLoop (moduleId : Nat) (endFlashData : List Nat) :
    Nat → Nat → Updater → Bool × Updater
  | 0, _, st => (false, st)
  | fuel + 1, pageRetryCount, st =>
    let r1 := setFirmwareCommand true moduleId 2 0x0801F800 st
    let eraseOk := r1.1
    let st := r1.2
    if !eraseOk then
      (false, { st with updateError := -1, updateErrorMessage := "End erase error" })
    else
      let r2 := sendDataChunksAux moduleId endFlashData ((endFlashData.length + 7) / 8) 0 0 st
      let checksum := r2.1
      let st := r2.2
      let r3 := setFirmwareCommand false moduleId checksum 0x0801F800 st
      let crcOk := r3.1
      let st := r3.2
      if crcOk then (true, st)
      else if st.updateError = -1 then (false, st)
      else if pageRetryCount + 1 > 10 then
        (false, { st with updateError := -1, updateErrorMessage := "End crc error" })
      else endFlashLoop moduleId endFlashData fuel (pageRetryCount + 1) st

/-- `set_end_flash_data` (lines 216-267). -/
def setEndFlashData (moduleId : Nat) (endFlashData : List Nat) (st : Updater) :
    Bool × Updater :=
  endFlashLoop moduleId endFlashData 12 0 st

/-- Python truthiness of the `Optional[bool]` field `self.is_network`
at the branch of line 346. -/
def pyTruthy : Option Bool → Bool
  | some true => true
  | _ => false

/-- Lines 278-281: keep `uuid & 0xFFF` as the module id when a uuid was
obtained, else fall back to the broadcast id `0xFFF` (Python truthiness:
`None` and `0` are both falsy). -/
def applyNetworkIdFallback (st : Updater) : Updater :=
  match st.networkUuid with
  | some u =>
    if u ≠ 0 then { st with networkId := u &&& 0xFFF }
    else { st with networkId := 0xFFF }
  | none => { st with networkId := 0xFFF }

/-- Lines 353-357: `update_error` becomes 1 on success and -1 on
failure. -/
def setResultError (ok : Bool) (st : Updater) : Updater :=
  if ok then { st with updateError := 1 } else { st with updateError := -1 }

/-- Intermediate observations recorded by the pipeline model for the
theorems; nothing feeds back into the run. -/
structure PipelineInfo where
  pageLoopMessage : String
  pageLoopHasError : Bool
  pageLoopEnd : Nat
  endFlashOk : Bool
  endFlashMessage : String
deriving DecidableEq

/-- `update_network_module` / `update_camera_module` (lines 361-498 and
500-637): the two procedures are the same state machine up to the module
label and the firmware-catalog entry, so the model takes both as
parameters.  `binSize` is the value of `sys.getsizeof(bin_buffer)`
(line 372), supplied by the caller — `runUpdateAuto` instantiates it
faithfully via `sysGetsizeofBytes`.  Sequence: page loop,
`progress = 99`, build the end-flash block from `has_update_error`,
`set_end_flash_data` (on failure overwrite the message with
`"version writing failed."`), broadcast reboot, `progress = 100`,
close, return `not has_update_error`. -/
def updateModuleBin (label versionStr : String) (binBuffer : List Nat) (binSize : Nat)
    (moduleId : Nat) (fuel : Nat) (st : Updater) : Option (Bool × Updater × PipelineInfo) :=
  let binEnd := binEndOf binSize
  match pageLoop label moduleId binSize binEnd binBuffer fuel pageSize 0 0 st with
  | none => none
  | some (st, pageLoopEnd) =>
    let loopMsg := st.updateErrorMessage
    let loopErr := st.hasUpdateError
    let st := setProgress 99 st
    let endFlashData := buildEndFlashData versionStr st.hasUpdateError
    let r := setEndFlashData moduleId endFlashData st
    let endOk := r.1
    let st := r.2
    let endMsg := st.updateErrorMessage
    let st :=
      if endOk then st
      else { st with updateErrorMessage := "version writing failed.", hasUpdateError := true }
    let st := sendSetModuleState 0xFFF Module.REBOOT Module.PNP_OFF st
    let st := setProgress 100 st
    let st := closePort st
    some (!st.hasUpdateError, st, ⟨loopMsg, loopErr, pageLoopEnd, endOk, endMsg⟩)

/-- The observations a whole run returns, next to the final per-worker
state: the identify outcome as stored at lines 276-281, whether the
warning phase timed out, which per-type pipeline ran, and the pipeline
observations. -/
structure RunResult where
  final : Updater
  postIdentifyUuid : Option Nat
  postIdentifyIsNetwork : Option Bool
  postIdentifyNetworkId : Nat
  warningTimedOut : Bool
  tookNetworkPath : Option Bool
  pipe : Option PipelineInfo
deriving DecidableEq

/-- `update_module_firmware` (lines 269-359): set `progress = 0`,
identify (falling back to the broadcast id `0xFFF`), send the
bootloader handoff `0xA4`, close and reopen the port, wait for the
warning flag (on timeout: `update_error = -1`, `"Warning timeout"`,
close, return), then run the per-type pipeline selected by the Python
truthiness of `is_network`, close, and set `update_error` to `1` or
`-1`. -/
def updateModuleFirmware (moduleTypeOf : Nat → ModuleType)
    (fvNetwork fvCamera : String) (netBin camBin : List Nat)
    (netBinSize camBinSize : Nat) (fuel : Nat) (st : Updater) : Option RunResult :=
  let st := { st with updateInProgress := true }
  let st := setProgress 0 st
  let r0 := getConnectedModuleInfo moduleTypeOf st
  let idres := r0.1
  let st := r0.2
  let st := { st with
                networkUuid := idres.1
                networkVersion := idres.2.1
                isNetwork := idres.2.2 }
  let st := applyNetworkIdFallback st
  let postUuid := st.networkUuid
  let postIsNet := st.isNetwork
  let postId := st.networkId
  let st := sendSetNetworkModuleState st.networkId Module.UPDATE_FIRMWARE Module.PNP_OFF st
  let st := closePort st
  let st := openPort st
  let r1 := warningLoopAux moduleTypeOf st.now st.events 0 st
  let isTimeout := r1.1
  let st := r1.2
  if isTimeout then
    let st := { st with
                  updateInProgress := false
                  updateError := -1
                  updateErrorMessage := "Warning timeout" }
    let st := closePort st
    some ⟨st, postUuid, postIsNet, postId, true, none, none⟩
  else
    let takesNetwork := pyTruthy st.isNetwork
    let res :=
      if takesNetwork then
        updateModuleBin "network" fvNetwork netBin netBinSize st.networkId fuel st
      else
        updateModuleBin "camera" fvCamera camBin camBinSize st.networkId fuel st
    match res with
    | none => none
    | some (ok, st, info) =>
      let st := closePort st
      let st := setResultError ok st
      let st := { st with updateInProgress := false }
      some ⟨st, postUuid, postIsNet, postId, false, some takesNetwork, some info⟩

/-- A whole worker run from a fresh updater, with the two
`sys.getsizeof` values supplied explicitly (see `runUpdateAuto`). -/
def runUpdate (moduleTypeOf : Nat → ModuleType) (fvNetwork fvCamera : String)
    (netBin camBin : List Nat) (netBinSize camBinSize : Nat)
    (events : List ReadEvent) (t0 fuel : Nat) : Option RunResult :=
  updateModuleFirmware moduleTypeOf fvNetwork fvCamera netBin camBin
    netBinSize camBinSize fuel (initUpdater events t0)

/-- A whole worker run with the buffer sizes computed exactly as the
source does, `bin_size = sys.getsizeof(bin_buffer)` (line 372). -/
def runUpdateAuto (moduleTypeOf : Nat → ModuleType) (fvNetwork fvCamera : String)
    (netBin camBin : List Nat) (events : List ReadEvent) (t0 fuel : Nat) :
    Option RunResult :=
  runUpdate moduleTypeOf fvNetwork fvCamera netBin camBin
    (sysGetsizeofBytes netBin) (sysGetsizeofBytes camBin) events t0 fuel

/-! ## Concrete device scripts used by the theorems -/

/-- A concrete uuid-to-type map for the scenarios: `0xABC` is a network
module, `0xDEF` a camera module. -/
def demoTypeOf (u : Nat) : ModuleType :=
  if u = 0xABC then ModuleType.network
  else if u = 0xDEF then ModuleType.camera
  else ModuleType.other

/-- Little-endian bytes of the network uuid `0xABC`. -/
def netUuidBytes : List Nat := [0xBC, 0x0A, 0, 0, 0, 0]

/-- Little-endian bytes of the camera uuid `0xDEF`. -/
def camUuidBytes : List Nat := [0xEF, 0x0D, 0, 0, 0, 0]

/-- A `0x05` uuid reply of the network module, version `0x2203`
(= 1.2.3), read at time 1. -/
def idFrame : ReadEvent := ⟨1, some ⟨0x05, netUuidBytes ++ [0x03, 0x22]⟩⟩

/-- A `0x0A` warning frame of the network module with
`warning_type = 2`, read at time 2. -/
def warnFrame : ReadEvent := ⟨2, some ⟨0x0A, netUuidBytes ++ [2]⟩⟩

/-- A `0x0A` warning frame of the camera module with
`warning_type = 2`, read at time 5. -/
def camWarnFrame : ReadEvent := ⟨5, some ⟨0x0A, camUuidBytes ++ [2]⟩⟩

/-- A `0x0C` response whose stream state is `ERASE_ERROR`. -/
def eraseErrorFrame : ReadEvent := ⟨3, some ⟨0x0C, [0, 0, 0, 0, ERASE_ERROR]⟩⟩

/-- A `0x0C` response whose stream state is `ERASE_COMPLETE`. -/
def eraseCompleteFrame : ReadEvent := ⟨3, some ⟨0x0C, [0, 0, 0, 0, ERASE_COMPLETE]⟩⟩

/-- A `0x0C` response whose stream state is `CRC_COMPLETE`. -/
def crcCompleteFrame : ReadEvent := ⟨3, some ⟨0x0C, [0, 0, 0, 0, CRC_COMPLETE]⟩⟩

/-- An empty read at time 2. -/
def emptyRead : ReadEvent := ⟨2, none⟩

/-- A 4096-byte image whose only non-zero byte sits at offset `0x800`,
the first byte after the skipped vector page. -/
def onePageImage : List Nat := List.replicate 2048 0 ++ 1 :: List.replicate 2047 0

/-- A 4096-byte all-zero image: every page is skipped. -/
def zeroImage4096 : List Nat := List.replicate 4096 0

/-- A 2048-byte all-zero image: the page loop has nothing to do. -/
def zeroImage2048 : List Nat := List.replicate 2048 0

/-- A default result for projecting out of an `Option RunResult` that is
known (and proved) to be `some`. -/
def defaultRunResult : RunResult :=
  ⟨initUpdater [] 0, none, none, 0, false, none, none⟩

/-- Device that identifies, signals ready, then answers every erase
request (3 page-loop attempts × 7 transmissions each) with
`ERASE_ERROR`; silent afterwards. -/
def c1Events : List ReadEvent :=
  idFrame :: warnFrame :: List.replicate 21 eraseErrorFrame

/-- The always-NAK-erase run of claim C1. -/
def c1Run : Option RunResult :=
  runUpdate demoTypeOf "1.2.3" "1.2.3" onePageImage zeroImage2048 4129 2081 c1Events 0 10

/-- The result of `c1Run`. -/
def c1Res : RunResult := c1Run.getD defaultRunResult

/-- Identify times out (one empty read at time 4 > 3 s); the warning
phase then hears a camera module. -/
def c3Events : List ReadEvent := [⟨4, none⟩, camWarnFrame]

/-- The identify-timeout run of claim C3. -/
def c3Run : Option RunResult :=
  runUpdate demoTypeOf "1.2.3" "1.2.3" onePageImage zeroImage2048 4129 2081 c3Events 0 10

/-- The result of `c3Run`. -/
def c3Res : RunResult := c3Run.getD defaultRunResult

/-- A completely silent device: identify times out, then the warning
phase times out. -/
def timeoutRun : Option RunResult :=
  runUpdate demoTypeOf "1.2.3" "1.2.3" onePageImage zeroImage2048 4129 2081 [] 0 10

/-- The result of `timeoutRun`. -/
def timeoutRes : RunResult := timeoutRun.getD defaultRunResult

/-- Device that NAKs every page erase (21 responses) but then accepts
the trailer erase and trailer CRC. -/
def c5Events : List ReadEvent :=
  idFrame :: warnFrame ::
    (List.replicate 21 eraseErrorFrame ++ [eraseCompleteFrame, crcCompleteFrame])

/-- The page-loop-fatal-with-good-trailer run of claim C5. -/
def c5Run : Option RunResult :=
  runUpdate demoTypeOf "1.2.3" "1.2.3" onePageImage zeroImage2048 4129 2081 c5Events 0 10

/-- The result of `c5Run`. -/
def c5Res : RunResult := c5Run.getD defaultRunResult

/-- Device that identifies and signals ready over an all-zero image, then
answers every trailer-erase request with `ERASE_ERROR`. -/
def c7Events : List ReadEvent :=
  idFrame :: warnFrame :: List.replicate 7 eraseErrorFrame

/-- The trailer-erase-exhaustion run of claim C7. -/
def c7Run : Option RunResult :=
  runUpdate demoTypeOf "1.2.3" "1.2.3" zeroImage4096 zeroImage2048 4129 2081 c7Events 0 10

/-- The result of `c7Run`. -/
def c7Res : RunResult := c7Run.getD defaultRunResult

/-- The erase command packets (cmd `0x0D`, sid `0x201`) whose page
address field is the little-endian encoding of `addr`. -/
def erasePacketsTo (addr : Nat) (ps : List Packet) : List Packet :=
  ps.filter (fun p => p.cmd == 0x0D && p.sid == 0x201 && p.data.drop 4 == leBytes4 addr)

/-- The warning-timeout run for the C9 witness: empty image, silent
device. -/
def c9WitnessRun : Option RunResult :=
  runUpdate demoTypeOf "1.2.3" "1.2.3" [] [] 33 33 [] 0 1

/-- The result of `c9WitnessRun`. -/
def c9WitnessRes : RunResult := c9WitnessRun.getD defaultRunResult

/-- The read scripts the transport can actually produce for the warning
phase when the previous read (or the phase start) happened at time
`prev`: timestamps never decrease, and an empty read only returns once
its 2-second `wait_for_json` timeout has elapsed — `wait_for_json`
(lines 651-659) returns `None` only when `time.time() - init_time >
timeout`, and the warning loop calls it with the default `timeout = 2`
(line 302) — so, with whole-second timestamps, an empty read's stamp
exceeds the previous one by more than 2. -/
def realizableFrom : Nat → List ReadEvent → Bool
  | _, [] => true
  | prev, e :: es =>
    (match e.frame with
     | none => decide (prev + 2 < e.time)
     | some _ => decide (prev ≤ e.time)) && realizableFrom e.time es

/-- Claim C4's timeout condition, read over the event script: the phase
fails by timeout exactly when 10 seconds elapse overall (a read is
observed more than 10 s after the phase start) or 5 consecutive empty
reads occur, a successful (non-empty) read resetting the empty-read
count; a ready warning (`0x0A` from a network or camera module with
`warning_type = 2`) within the limits ends the phase successfully, and
a silent (exhausted) script times out. -/
def warningClaimTimeout (moduleTypeOf : Nat → ModuleType) (initTime : Nat) :
    Nat → List ReadEvent → Bool
  | _, [] => true
  | count, e :: es =>
    match e.frame with
    | none =>
      if count + 1 ≥ 5 then true
      else warningClaimTimeout moduleTypeOf initTime (count + 1) es
    | some f =>
      if e.time - initTime > 10 then true
      else if f.c = 0x0A ∧
          (moduleTypeOf (unpackData2 f.b 6 1).1 = ModuleType.network ∨
            moduleTypeOf (unpackData2 f.b 6 1).1 = ModuleType.camera) ∧
          (unpackData2 f.b 6 1).2 = 2 then false
      else warningClaimTimeout moduleTypeOf initTime 0 es

/-- A realizable warning-phase script for the C4 witness: two empty
reads, each more than 2 s after the previous stamp, then a ready
warning within the 10 s limit. -/
def c4WitnessEvents : List ReadEvent :=
  [⟨3, none⟩, ⟨6, none⟩, ⟨7, some ⟨0x0A, netUuidBytes ++ [2]⟩⟩]

/-! ## Theorems: helper lemmas -/

theorem and_mask32 (n : Nat) : n &&& 4294967295 = n % 4294967296 := by
  have h := Nat.and_pow_two_sub_one_eq_mod n 32
  norm_num at h
  exact h

theorem crc32Round_eq_specRound : crc32Round = crc32SpecRound := by
  funext crc
  unfold crc32Round crc32SpecRound
  have h2 : crc &&& 1 <<< 31 = (crc.testBit 31).toNat * 2 ^ 31 := by
    rw [Nat.one_shiftLeft]; exact Nat.and_two_pow crc 31
  have h3 : crc <<< 1 = crc * 2 := by rw [Nat.shiftLeft_eq, pow_one]
  cases hb : crc.testBit 31
  · rw [h2, hb]
    norm_num [h3, and_mask32]
  · rw [h2, hb]
    norm_num [h3, and_mask32]

theorem crc32Round_lt (x : Nat) : crc32Round x < 2 ^ 32 := by
  unfold crc32Round
  split <;> exact lt_of_le_of_lt Nat.and_le_right (by norm_num)

theorem calc_crc32_lt (d : List Nat) (c : Nat) : calc_crc32 d c < 2 ^ 32 := by
  unfold calc_crc32
  rw [show (32 : Nat) = 31 + 1 from rfl, Function.iterate_succ_apply']
  exact crc32Round_lt _

/-! ## Theorems: the claims -/

/-- C1, counterexample.  Against a device that answers every erase
request with an erase failure (`c1Events`: 21 `ERASE_ERROR` responses),
the run emits 21 erase request packets for the first non-empty page —
not 3 — because `set_firmware_command` itself retransmits each failed
erase up to 6 more times before the page loop's own counter even
advances. -/
theorem c1_counterexample :
    c1Run.isSome = true ∧
    (erasePacketsTo 0x08009000 c1Res.final.sent).length = 21 ∧
    (erasePacketsTo 0x08009000 c1Res.final.sent).length ≠ 3 := by decide

/-- C1, amended.  Against a device that answers every erase request with
an erase failure, the page loop performs exactly 3 erase operations
(one initial plus 2 retries) for the first non-empty page, each
operation emitting 7 erase request packets (21 in total); it then exits
with `has_update_error` set and the message
`"network (<id>) erase flash failed."`, without advancing to any later
page and without sending any data or CRC packet for the page.  (In this
run the later trailer phase fails too and overwrites the message.)  The
first conjunct certifies that the `bin_size` passed to the run is
exactly `sys.getsizeof` of the image. -/
theorem c1_amended :
    sysGetsizeofBytes onePageImage = 4129 ∧
    c1Run.isSome = true ∧
    (erasePacketsTo 0x08009000 c1Res.final.sent).length = 21 ∧
    c1Res.pipe = some ⟨eraseFailMessage "network" 2748, true, 2048, false, "End erase error"⟩ ∧
    c1Res.final.hasUpdateError = true ∧
    (c1Res.final.sent.filter (fun p => p.cmd == 0x0B)).length = 0 ∧
    (c1Res.final.sent.filter (fun p => p.cmd == 0x0D && p.sid == 0x101)).length = 0 ∧
    c1Res.final.progressTrace = [0, 0, 50, 50, 50, 99, 100] := by
  refine ⟨?_, ?_⟩
  · rw [sysGetsizeofBytes, onePageImage]
    simp only [List.length_append, List.length_replicate, List.length_cons]
  · decide

/-- C2.  `calc_crc32` computes exactly the specified step — xor the
32-bit accumulator with the little-endian u32 of the 4-byte chunk, then
32 iterations of shift-left-and-conditionally-xor-`0x04C11DB7`, masked
to 32 bits after each iteration — and `calc_crc64` is the 4-byte step
applied first to bytes 0..4 and then to bytes 4..8 of the chunk. -/
theorem c2_crc_step (d : List Nat) (c : Nat) :
    (d.length = 4 → c < 2 ^ 32 → calc_crc32 d c = crc32Spec d c) ∧
    (d.length = 8 → calc_crc64 d c = calc_crc32 (d.drop 4) (calc_crc32 (d.take 4) c)) := by
  constructor
  · intro _ _
    unfold calc_crc32 crc32Spec
    rw [crc32Round_eq_specRound]
  · intro _
    rfl

/-- C2, witness. -/
theorem c2_crc_step_witness :
    (([1, 2, 3, 4] : List Nat).length = 4 ∧ (5 : Nat) < 2 ^ 32 ∧
      calc_crc32 [1, 2, 3, 4] 5 = crc32Spec [1, 2, 3, 4] 5) ∧
    (([1, 2, 3, 4, 5, 6, 7, 8] : List Nat).length = 8 ∧
      calc_crc64 [1, 2, 3, 4, 5, 6, 7, 8] 5 =
        calc_crc32 (([1, 2, 3, 4, 5, 6, 7, 8] : List Nat).drop 4)
          (calc_crc32 (([1, 2, 3, 4, 5, 6, 7, 8] : List Nat).take 4) 5)) :=
  ⟨⟨by decide, by norm_num,
      (c2_crc_step [1, 2, 3, 4] 5).1 (by decide) (by norm_num)⟩,
    ⟨by decide, (c2_crc_step [1, 2, 3, 4, 5, 6, 7, 8] 5).2 (by decide)⟩⟩

/-- C3, counterexample.  In `c3Run` the identify phase times out (the
stored uuid and type are `None`, the id falls back to the broadcast
`0xFFF`), yet the run does not take the network pipeline: the warning
phase hears a camera module and the pipeline branch selects the camera
path. -/
theorem c3_counterexample :
    c3Run.isSome = true ∧
    c3Res.postIdentifyUuid = none ∧
    c3Res.postIdentifyNetworkId = 0xFFF ∧
    c3Res.tookNetworkPath = some false := by decide

/-- C3, amended.  When the identify phase times out, the update proceeds
with `module_id = 0xFFF` (broadcast) and `is_network = None` — there is
no defaulting to the network type.  The pipeline branch is decided by
the first warning frame of phase 3, which also replaces the broadcast id
with the frame's `uuid & 0xFFF`; a camera warning frame routes the run
into the camera pipeline.  The first conjuncts certify the `bin_size`
values passed to the run. -/
theorem c3_amended :
    sysGetsizeofBytes onePageImage = 4129 ∧
    sysGetsizeofBytes zeroImage2048 = 2081 ∧
    c3Run.isSome = true ∧
    c3Res.postIdentifyUuid = none ∧
    c3Res.postIdentifyIsNetwork = none ∧
    c3Res.postIdentifyNetworkId = 0xFFF ∧
    c3Res.final.networkId = 0xDEF ∧
    c3Res.final.isNetwork = some false ∧
    c3Res.tookNetworkPath = some false := by
  refine ⟨?_, ?_, ?_⟩
  · rw [sysGetsizeofBytes, onePageImage]
    simp only [List.length_append, List.length_replicate, List.length_cons]
  · rw [sysGetsizeofBytes, zeroImage2048]
    simp only [List.length_replicate]
  · decide

/-- C5, counterexample.  The warning-timeout abort (`timeoutRun`) is a
fatal error (`update_error = -1`, message populated) that leaves
`has_update_error` false and writes nothing at all: no firmware-data
packet (`0x0B`) and no firmware-command packet (`0x0D`) is ever sent, so
no end-flash trailer with `verify_header = 0xFF` is written. -/
theorem c5_counterexample :
    timeoutRun.isSome = true ∧
    timeoutRes.final.updateError = -1 ∧
    timeoutRes.final.updateErrorMessage = "Warning timeout" ∧
    timeoutRes.final.hasUpdateError = false ∧
    (timeoutRes.final.sent.filter (fun p => p.cmd == 0x0B)).length = 0 ∧
    (timeoutRes.final.sent.filter (fun p => p.cmd == 0x0D)).length = 0 := by decide

/-- C5, amended.  A fatal error of the page loop sets
`has_update_error`, populates `update_error_message`, and still writes
the end-flash trailer with `verify_header = 0xFF` (in `c5Run` the first
trailer data chunk starts with `0xFF`); but the warning-timeout fatal
(see the counterexample) aborts before the trailer and leaves
`has_update_error` false, and a fatal failure of the trailer phase
itself ends the run without a written trailer.  The first conjunct
certifies the `bin_size` passed to the run. -/
theorem c5_amended :
    sysGetsizeofBytes onePageImage = 4129 ∧
    c5Run.isSome = true ∧
    c5Res.final.updateError = -1 ∧
    c5Res.final.hasUpdateError = true ∧
    c5Res.final.updateErrorMessage = eraseFailMessage "network" 2748 ∧
    (c5Res.final.sent.filter (fun p => p.cmd == 0x0B)).head? =
      some ⟨0x0B, 0, 2748, [0xFF, 0, 0, 0, 0, 0, 0x03, 0x22]⟩ := by
  refine ⟨?_, ?_⟩
  · rw [sysGetsizeofBytes, onePageImage]
    simp only [List.length_append, List.length_replicate, List.length_cons]
  · decide

/-- C6 (code bug).  For a firmware file of exactly 4095 bytes, the
source computes `bin_end` from `sys.getsizeof` of the loaded buffer
(4095 + 33 = 4128 on 64-bit CPython) and obtains 4096, while the claim's
formula over the exact file length gives 2048: the loop would walk a
page that the exact-length formula excludes. -/
theorem c6_bin_end_mismatch :
    binEndCode (List.replicate 4095 1) = 4096 ∧
    binEndSpecExact 4095 = 2048 ∧
    binEndCode (List.replicate 4095 1) ≠ binEndSpecExact 4095 := by
  have h : sysGetsizeofBytes (List.replicate 4095 1) = 4128 := by
    rw [sysGetsizeofBytes]
    simp only [List.length_replicate]
  refine ⟨?_, by decide, ?_⟩
  · rw [binEndCode, h]; decide
  · rw [binEndCode, h]; decide

/-- C7, counterexample.  Against a device that rejects every trailer
erase, `c7Run` emits 7 erase request packets for the trailer page at
`0x0801F800` — not at most 6 — and the surfaced
`update_error_message` at the end of the run is
`"version writing failed."`, the caller having overwritten the
`"End erase error"` set inside `set_end_flash_data`. -/
theorem c7_counterexample :
    c7Run.isSome = true ∧
    (erasePacketsTo 0x0801F800 c7Res.final.sent).length = 7 ∧
    (erasePacketsTo 0x0801F800 c7Res.final.sent).length ≠ 6 ∧
    c7Res.final.updateErrorMessage ≠ "End erase error" := by decide

/-- C7, amended.  When every attempt fails, the trailer-page erase at
`0x0801F800` is attempted exactly 7 times (one initial attempt plus 6
retries, since `set_firmware_command` retransmits until `retry_count`
exceeds 5); `set_end_flash_data` then sets `update_error = -1` and
`update_error_message = "End erase error"` and returns failure, after
which the caller overwrites the message with
`"version writing failed."` and sets `has_update_error`.  The first
conjunct certifies the `bin_size` passed to the run. -/
theorem c7_amended :
    sysGetsizeofBytes zeroImage4096 = 4129 ∧
    c7Run.isSome = true ∧
    (erasePacketsTo 0x0801F800 c7Res.final.sent).length = 7 ∧
    c7Res.pipe = some ⟨"", false, 4096, false, "End erase error"⟩ ∧
    c7Res.final.updateError = -1 ∧
    c7Res.final.updateErrorMessage = "version writing failed." ∧
    c7Res.final.hasUpdateError = true := by
  refine ⟨?_, ?_⟩
  · rw [sysGetsizeofBytes, zeroImage4096]
    simp only [List.length_replicate]
  · decide

/-- C8.  For version `"1.2.3"` and no update error, the 16-byte
end-flash block has byte 0 = `0xAA`, bytes 6-7 = `(0x03, 0x22)`
(little-endian of `(1 << 13) | (2 << 8) | 3 = 0x2203`), bytes 12-15 =
`(0x00, 0x90, 0x00, 0x08)` (little-endian of `0x08009000`), and every
other byte zero. -/
theorem c8_end_flash_layout :
    buildEndFlashData "1.2.3" false =
      [0xAA, 0, 0, 0, 0, 0, 0x03, 0x22, 0, 0, 0, 0, 0x00, 0x90, 0x00, 0x08] := by
  decide

/-- C9, counterexample.  In the warning-timeout run the stored progress
values are `[0, 0]`: the final value is 0, not 100. -/
theorem c9_counterexample :
    timeoutRun.isSome = true ∧
    timeoutRes.final.progressTrace.getLast? = some 0 ∧
    timeoutRes.final.progressTrace.getLast? ≠ some 100 := by decide

/-- C10.  For every byte string of length at most 8 — including a short
final chunk — and every natural-number accumulator, `calc_crc32` and
`calc_crc64` return a value below `2 ^ 32`, so the checksum sent in the
CRC firmware command always fits the 4-byte CRC field of the `0x0D`
packet. -/
theorem c10_crc_range (d : List Nat) (c : Nat) (_hd : d.length ≤ 8) :
    calc_crc32 d c < 2 ^ 32 ∧ calc_crc64 d c < 2 ^ 32 :=
  ⟨calc_crc32_lt d c, calc_crc32_lt (d.drop 4) (calc_crc32 (d.take 4) c)⟩

/-- C10, witness. -/
theorem c10_crc_range_witness :
    ([1, 2, 3] : List Nat).length ≤ 8 ∧
      (calc_crc32 [1, 2, 3] 1000000 < 2 ^ 32 ∧ calc_crc64 [1, 2, 3] 1000000 < 2 ^ 32) :=
  ⟨by decide, c10_crc_range [1, 2, 3] 1000000 (by decide)⟩

/-! ## Trace preservation lemmas -/

theorem sendPkt_trace (p : Packet) (st : Updater) :
    (sendPkt p st).progressTrace = st.progressTrace := by
  unfold sendPkt; split <;> rfl

theorem sendRequestNetworkUuid_trace (st : Updater) :
    (sendRequestNetworkUuid st).progressTrace = st.progressTrace := sendPkt_trace _ _

theorem sendSetNetworkModuleState_trace (did ms ps : Nat) (st : Updater) :
    (sendSetNetworkModuleState did ms ps st).progressTrace = st.progressTrace :=
  sendPkt_trace _ _

theorem sendSetModuleState_trace (did ms ps : Nat) (st : Updater) :
    (sendSetModuleState did ms ps st).progressTrace = st.progressTrace :=
  sendPkt_trace _ _

theorem sendFirmwareCommand_trace (o : Bool) (m c a : Nat) (st : Updater) :
    (sendFirmwareCommand o m c a st).progressTrace = st.progressTrace :=
  sendPkt_trace _ _

theorem sendFirmwareData_trace (m s : Nat) (b : List Nat) (st : Updater) :
    (sendFirmwareData m s b st).progressTrace = st.progressTrace :=
  sendPkt_trace _ _

theorem setProgress_trace (p : Nat) (st : Updater) :
    (setProgress p st).progressTrace = st.progressTrace ++ [p] := rfl

theorem closePort_trace (st : Updater) :
    (closePort st).progressTrace = st.progressTrace := rfl

theorem openPort_trace (st : Updater) :
    (openPort st).progressTrace = st.progressTrace := rfl

theorem applyNetworkIdFallback_trace (st : Updater) :
    (applyNetworkIdFallback st).progressTrace = st.progressTrace := by
  unfold applyNetworkIdFallback
  cases st.networkUuid with
  | none => rfl
  | some u => dsimp only; split <;> rfl

theorem setResultError_trace (ok : Bool) (st : Updater) :
    (setResultError ok st).progressTrace = st.progressTrace := by
  unfold setResultError; split <;> rfl

theorem receiveLoopAux_trace (t0 : Nat) :
    ∀ (evs : List ReadEvent) (st : Updater),
      ((receiveLoopAux t0 evs st).2).progressTrace = st.progressTrace := by
  intro evs
  induction evs with
  | nil => intro st; rfl
  | cons e es ih =>
    intro st
    simp only [receiveLoopAux]
    cases hf : e.frame with
    | none => rfl
    | some f =>
      dsimp only
      split_ifs <;> first | rfl | exact ih _

theorem receiveFirmwareCommandResponse_trace (st : Updater) :
    ((receiveFirmwareCommandResponse st).2).progressTrace = st.progressTrace :=
  receiveLoopAux_trace _ _ _

theorem eraseRetryLoop_trace (m c a : Nat) :
    ∀ (k : Nat) (st : Updater),
      ((eraseRetryLoop m c a k st).2).progressTrace = st.progressTrace := by
  intro k
  induction k with
  | zero => intro st; rfl
  | succ n ih =>
    intro st
    simp only [eraseRetryLoop]
    split
    · simp [receiveFirmwareCommandResponse_trace, sendFirmwareCommand_trace]
    · rw [ih]
      simp [receiveFirmwareCommandResponse_trace, sendFirmwareCommand_trace]

theorem setFirmwareCommand_trace (o : Bool) (m c a : Nat) (st : Updater) :
    ((setFirmwareCommand o m c a st).2).progressTrace = st.progressTrace := by
  simp only [setFirmwareCommand]
  split
  · rw [eraseRetryLoop_trace]
    simp [receiveFirmwareCommandResponse_trace, sendFirmwareCommand_trace]
  · simp [receiveFirmwareCommandResponse_trace, sendFirmwareCommand_trace]

theorem setFirmwareData_trace (m s : Nat) (b : List Nat) (c : Nat) (st : Updater) :
    ((setFirmwareData m s b c st).2).progressTrace = st.progressTrace :=
  sendFirmwareData_trace _ _ _ _

theorem writeChunksAux_trace (m pb bs : Nat) (cp : List Nat) :
    ∀ (k i c : Nat) (st : Updater),
      ((writeChunksAux m pb bs cp k i c st).2).progressTrace = st.progressTrace := by
  intro k
  induction k with
  | zero => intro i c st; rfl
  | succ n ih =>
    intro i c st
    simp only [writeChunksAux]
    split
    · rfl
    · rw [ih]
      simp [setFirmwareData_trace]

theorem sendDataChunksAux_trace (m : Nat) (d : List Nat) :
    ∀ (k s c : Nat) (st : Updater),
      ((sendDataChunksAux m d k s c st).2).progressTrace = st.progressTrace := by
  intro k
  induction k with
  | zero => intro s c st; rfl
  | succ n ih =>
    intro s c st
    simp only [sendDataChunksAux]
    rw [ih]
    simp [setFirmwareData_trace]

theorem endFlashLoop_trace (m : Nat) (d : List Nat) :
    ∀ (fuel prc : Nat) (st : Updater),
      ((endFlashLoop m d fuel prc st).2).progressTrace = st.progressTrace := by
  intro fuel
  induction fuel with
  | zero => intro prc st; rfl
  | succ n ih =>
    intro prc st
    simp only [endFlashLoop]
    split_ifs <;>
      first
        | simp [setFirmwareCommand_trace, sendDataChunksAux_trace]
        | (rw [ih]; simp [setFirmwareCommand_trace, sendDataChunksAux_trace])

theorem setEndFlashData_trace (m : Nat) (d : List Nat) (st : Updater) :
    ((setEndFlashData m d st).2).progressTrace = st.progressTrace :=
  endFlashLoop_trace _ _ _ _ _

theorem identifyLoopAux_trace (mto : Nat → ModuleType) (t0 : Nat) :
    ∀ (evs : List ReadEvent) (st : Updater),
      ((identifyLoopAux mto t0 evs st).2).progressTrace = st.progressTrace := by
  intro evs
  induction evs with
  | nil => intro st; exact sendPkt_trace _ _
  | cons e es ih =>
    intro st
    simp only [identifyLoopAux]
    split_ifs with ht
    · simp [sendRequestNetworkUuid_trace]
    · cases hf : e.frame with
      | none => rw [ih]; simp [sendRequestNetworkUuid_trace]
      | some f =>
        dsimp only
        split_ifs <;>
          first
            | (rw [ih]; simp [sendRequestNetworkUuid_trace])
            | simp [sendRequestNetworkUuid_trace]

theorem getConnectedModuleInfo_trace (mto : Nat → ModuleType) (st : Updater) :
    ((getConnectedModuleInfo mto st).2).progressTrace = st.progressTrace :=
  identifyLoopAux_trace _ _ _ _

theorem warningLoopAux_trace (mto : Nat → ModuleType) (t0 : Nat) :
    ∀ (evs : List ReadEvent) (retry : Nat) (st : Updater),
      ((warningLoopAux mto t0 evs retry st).2).progressTrace = st.progressTrace := by
  intro evs
  induction evs with
  | nil => intro retry st; rfl
  | cons e es ih =>
    intro retry st
    simp only [warningLoopAux]
    cases hf : e.frame <;>
      dsimp only <;>
        split_ifs <;>
          first
            | rfl
            | exact ih _ _
            | (rw [ih]; simp [sendSetModuleState_trace])

/-! ## Progress arithmetic -/

theorem progress_le_99 (pb bE : Nat) (h : pb < bE) : 100 * pb / bE ≤ 99 := by
  have h0 : 0 < bE := Nat.lt_of_le_of_lt (Nat.zero_le pb) h
  have h1 : 100 * pb / bE < 100 := by
    rw [Nat.div_lt_iff_lt_mul h0]
    exact Nat.mul_lt_mul_of_le_of_lt (le_refl 100) h (by norm_num)
  omega

theorem progress_mono (pb q bE : Nat) (h : pb ≤ q) :
    100 * pb / bE ≤ 100 * q / bE :=
  Nat.div_le_div_right (Nat.mul_le_mul_left 100 h)

/-! ## The page loop's progress trace -/

theorem pageLoop_trace (label : String) (mid bs bE : Nat) (buf : List Nat) :
    ∀ (fuel pb ec cc : Nat) (st st' : Updater) (pbf : Nat),
      pageLoop label mid bs bE buf fuel pb ec cc st = some (st', pbf) →
      ∃ tr, st'.progressTrace = st.progressTrace ++ tr ∧
        List.Pairwise (· ≤ ·) tr ∧ ∀ x ∈ tr, 100 * pb / bE ≤ x ∧ x ≤ 99 := by
  intro fuel
  induction fuel with
  | zero =>
    intro pb ec cc st st' pbf h
    simp [pageLoop] at h
  | succ n ih =>
    intro pb ec cc st st' pbf h
    simp only [pageLoop] at h
    by_cases hpb : pb < bE
    · rw [if_pos hpb] at h
      split_ifs at h with hz he hel hcrc hcl
      · -- all-zero page: skip and advance
        obtain ⟨tr, htr, hpw, hb⟩ := ih _ _ _ _ _ _ h
        refine ⟨100 * pb / bE :: tr, ?_, ?_, ?_⟩
        · rw [htr, setProgress_trace]
          simp
        · exact List.pairwise_cons.mpr ⟨fun x hx =>
            le_trans (progress_mono pb (pb + pageSize) bE (Nat.le_add_right _ _)) (hb x hx).1,
            hpw⟩
        · intro x hx
          rcases List.mem_cons.mp hx with rfl | hx
          · exact ⟨le_refl _, progress_le_99 pb bE hpb⟩
          · exact ⟨le_trans (progress_mono pb (pb + pageSize) bE (Nat.le_add_right _ _))
              (hb x hx).1, (hb x hx).2⟩
      · -- erase failed, counter exceeded: break
        simp only [Option.some.injEq, Prod.mk.injEq] at h
        obtain ⟨h1, h2⟩ := h
        subst h1
        refine ⟨[100 * pb / bE], ?_, by simp, ?_⟩
        · simp [setFirmwareCommand_trace, setProgress_trace]
        · intro x hx
          simp only [List.mem_singleton] at hx
          subst hx
          exact ⟨le_refl _, progress_le_99 pb bE hpb⟩
      · -- erase failed, retry the same page
        obtain ⟨tr, htr, hpw, hb⟩ := ih _ _ _ _ _ _ h
        refine ⟨100 * pb / bE :: tr, ?_, ?_, ?_⟩
        · rw [htr, setFirmwareCommand_trace, setProgress_trace]
          simp
        · exact List.pairwise_cons.mpr ⟨fun x hx => (hb x hx).1, hpw⟩
        · intro x hx
          rcases List.mem_cons.mp hx with rfl | hx
          · exact ⟨le_refl _, progress_le_99 pb bE hpb⟩
          · exact hb x hx
      · -- crc succeeded: advance
        obtain ⟨tr, htr, hpw, hb⟩ := ih _ _ _ _ _ _ h
        refine ⟨100 * pb / bE :: tr, ?_, ?_, ?_⟩
        · rw [htr, setFirmwareCommand_trace, writeChunksAux_trace,
            setFirmwareCommand_trace, setProgress_trace]
          simp
        · exact List.pairwise_cons.mpr ⟨fun x hx =>
            le_trans (progress_mono pb (pb + pageSize) bE (Nat.le_add_right _ _)) (hb x hx).1,
            hpw⟩
        · intro x hx
          rcases List.mem_cons.mp hx with rfl | hx
          · exact ⟨le_refl _, progress_le_99 pb bE hpb⟩
          · exact ⟨le_trans (progress_mono pb (pb + pageSize) bE (Nat.le_add_right _ _))
              (hb x hx).1, (hb x hx).2⟩
      · -- crc failed, counter exceeded: break
        simp only [Option.some.injEq, Prod.mk.injEq] at h
        obtain ⟨h1, h2⟩ := h
        subst h1
        refine ⟨[100 * pb / bE], ?_, by simp, ?_⟩
        · simp [setFirmwareCommand_trace, writeChunksAux_trace, setProgress_trace]
        · intro x hx
          simp only [List.mem_singleton] at hx
          subst hx
          exact ⟨le_refl _, progress_le_99 pb bE hpb⟩
      · -- crc failed, retry the same page
        obtain ⟨tr, htr, hpw, hb⟩ := ih _ _ _ _ _ _ h
        refine ⟨100 * pb / bE :: tr, ?_, ?_, ?_⟩
        · rw [htr, setFirmwareCommand_trace, writeChunksAux_trace,
            setFirmwareCommand_trace, setProgress_trace]
          simp
        · exact List.pairwise_cons.mpr ⟨fun x hx => (hb x hx).1, hpw⟩
        · intro x hx
          rcases List.mem_cons.mp hx with rfl | hx
          · exact ⟨le_refl _, progress_le_99 pb bE hpb⟩
          · exact hb x hx
    · rw [if_neg hpb] at h
      simp only [Option.some.injEq, Prod.mk.injEq] at h
      obtain ⟨h1, h2⟩ := h
      subst h1
      exact ⟨[], by simp, by simp, by simp⟩

theorem updateModuleBin_trace (label v : String) (buf : List Nat) (bs mid fuel : Nat)
    (st : Updater) (res : Bool × Updater × PipelineInfo)
    (h : updateModuleBin label v buf bs mid fuel st = some res) :
    ∃ tr, res.2.1.progressTrace = st.progressTrace ++ tr ++ [99, 100] ∧
      List.Pairwise (· ≤ ·) tr ∧ ∀ x ∈ tr, x ≤ 99 := by
  simp only [updateModuleBin] at h
  cases hp : pageLoop label mid bs (binEndOf bs) buf fuel pageSize 0 0 st with
  | none => rw [hp] at h; simp at h
  | some p =>
    obtain ⟨p1, ple⟩ := p
    rw [hp] at h
    dsimp only at h
    obtain ⟨tr, htr, hpw, hb⟩ :=
      pageLoop_trace label mid bs (binEndOf bs) buf fuel pageSize 0 0 st p1 ple hp
    simp only [Option.some.injEq] at h
    subst h
    refine ⟨tr, ?_, hpw, fun x hx => (hb x hx).2⟩
    dsimp only
    rw [closePort_trace, setProgress_trace, sendSetModuleState_trace]
    by_cases hok : (setEndFlashData mid (buildEndFlashData v (setProgress 99 p1).hasUpdateError)
        (setProgress 99 p1)).1
    · rw [if_pos hok, setEndFlashData_trace, setProgress_trace, htr]
      simp
    · rw [if_neg hok]
      dsimp only
      rw [setEndFlashData_trace, setProgress_trace, htr]
      simp

theorem run_branch_aux (label v : String) (buf : List Nat) (bs mid fuel : Nat)
    (stW : Updater) (ok : Bool) (st2 : Updater) (info : PipelineInfo)
    (heq : updateModuleBin label v buf bs mid fuel stW = some (ok, st2, info))
    (hW : stW.progressTrace = [0, 0]) :
    List.Pairwise (· ≤ ·) st2.progressTrace ∧
      st2.progressTrace.getLast? = some 100 := by
  obtain ⟨tr, htr, hpw, hb⟩ := updateModuleBin_trace _ _ _ _ _ _ _ _ heq
  dsimp only at htr
  rw [hW] at htr
  constructor
  · rw [htr]
    refine List.pairwise_append.mpr ⟨List.pairwise_append.mpr ⟨by simp, hpw, ?_⟩,
      by norm_num, ?_⟩
    · intro x hx y hy
      simp only [List.mem_cons, List.not_mem_nil, or_false] at hx
      rcases hx with rfl | rfl <;> exact Nat.zero_le _
    · intro x hx y hy
      simp only [List.mem_cons, List.not_mem_nil, or_false] at hy
      rcases List.mem_append.mp hx with hx | hx
      · simp only [List.mem_cons, List.not_mem_nil, or_false] at hx
        rcases hx with rfl | rfl <;> rcases hy with rfl | rfl <;> omega
      · have := hb x hx
        rcases hy with rfl | rfl <;> omega
  · rw [htr, show ([99, 100] : List Nat) = [99] ++ [100] from rfl,
      ← List.append_assoc, List.getLast?_concat]

theorem warningLate (mto : Nat → ModuleType) (t0 : Nat) :
    ∀ (evs : List ReadEvent) (prev : Nat), realizableFrom prev evs = true →
      t0 + 10 < prev →
      ∀ (c k : Nat) (st : Updater),
        (warningLoopAux mto t0 evs c st).1 = true ∧
          warningClaimTimeout mto t0 k evs = true := by
  intro evs
  induction evs with
  | nil => intro prev _ _ c k st; exact ⟨rfl, rfl⟩
  | cons e es ih =>
    intro prev hr hl c k st
    simp only [realizableFrom, Bool.and_eq_true] at hr
    obtain ⟨hstep, hr'⟩ := hr
    cases hf : e.frame with
    | none =>
      rw [hf] at hstep
      simp only [decide_eq_true_eq] at hstep
      have hl' : t0 + 10 < e.time := by omega
      constructor
      · simp only [warningLoopAux, hf]
        split_ifs
        · rfl
        · exact (ih e.time hr' hl' (c + 1) 0 _).1
      · simp only [warningClaimTimeout, hf]
        split_ifs
        · rfl
        · exact (ih e.time hr' hl' 0 (k + 1) st).2
    | some f =>
      rw [hf] at hstep
      simp only [decide_eq_true_eq] at hstep
      have ht : e.time - t0 > 10 := by omega
      constructor
      · simp only [warningLoopAux, hf]
        rw [if_pos ht]
      · simp only [warningClaimTimeout, hf]
        rw [if_pos ht]

theorem warningEarly (mto : Nat → ModuleType) (t0 : Nat) :
    ∀ (evs : List ReadEvent) (prev c k : Nat) (st : Updater),
      realizableFrom prev evs = true →
      t0 + 3 * c ≤ prev → prev ≤ t0 + 10 → k ≤ c →
      (warningLoopAux mto t0 evs c st).1 = warningClaimTimeout mto t0 k evs := by
  intro evs
  induction evs with
  | nil => intro prev c k st _ _ _ _; rfl
  | cons e es ih =>
    intro prev c k st hr h3 h10 hkc
    simp only [realizableFrom, Bool.and_eq_true] at hr
    obtain ⟨hstep, hr'⟩ := hr
    cases hf : e.frame with
    | none =>
      rw [hf] at hstep
      simp only [decide_eq_true_eq] at hstep
      simp only [warningLoopAux, warningClaimTimeout, hf]
      by_cases hlate : t0 + 10 < e.time
      · have hcode : ∀ st2 : Updater,
            (if c + 1 > 5 then (true, st2)
              else warningLoopAux mto t0 es (c + 1) st2).1 = true := by
          intro st2
          split_ifs
          · rfl
          · exact (warningLate mto t0 es e.time hr' hlate (c + 1) 0 st2).1
        have hclaim : (if k + 1 ≥ 5 then true
            else warningClaimTimeout mto t0 (k + 1) es) = true := by
          split_ifs
          · rfl
          · exact (warningLate mto t0 es e.time hr' hlate 0 (k + 1) st).2
        rw [hcode, hclaim]
      · have hc2 : c ≤ 2 := by omega
        rw [if_neg (by omega), if_neg (by omega)]
        exact ih e.time (c + 1) (k + 1) _ hr' (by omega) (by omega) (by omega)
    | some f =>
      rw [hf] at hstep
      simp only [decide_eq_true_eq] at hstep
      simp only [warningLoopAux, warningClaimTimeout, hf]
      by_cases ht : e.time - t0 > 10
      · rw [if_pos ht, if_pos ht]
      · rw [if_neg ht, if_neg ht]
        have hih : ∀ st2 : Updater,
            (warningLoopAux mto t0 es c st2).1 = warningClaimTimeout mto t0 0 es :=
          fun st2 => ih e.time c 0 st2 hr' (by omega) (by omega) (Nat.zero_le c)
        split_ifs <;>
          first
            | rfl
            | exact hih _
            | (exfalso; tauto)


/-- C9, amended.  For every worker run of `update_module_firmware`
(over any device script, firmware images, `sys.getsizeof` values and
sufficient fuel), the sequence of values successively stored in the
`progress` field is non-decreasing; a run whose warning phase succeeds
ends with final progress 100, while a warning-timeout abort stores
nothing after the two initial `0` stores, so its final value is 0. -/
theorem c9_amended (mto : Nat → ModuleType) (fvN fvC : String) (nb cb : List Nat)
    (ns cs : Nat) (evs : List ReadEvent) (t0 fuel : Nat) (r : RunResult)
    (h : runUpdate mto fvN fvC nb cb ns cs evs t0 fuel = some r) :
    List.Pairwise (· ≤ ·) r.final.progressTrace ∧
    (r.warningTimedOut = true → r.final.progressTrace = [0, 0]) ∧
    (r.warningTimedOut = false → r.final.progressTrace.getLast? = some 100) := by
  simp only [runUpdate, updateModuleFirmware] at h
  split_ifs at h with hw htn
  · simp only [Option.some.injEq] at h
    subst h
    refine ⟨?_, fun _ => ?_, fun hws => absurd hws (by simp)⟩
    · simp [closePort_trace, openPort_trace, setProgress_trace,
        sendSetNetworkModuleState_trace, applyNetworkIdFallback_trace,
        getConnectedModuleInfo_trace, warningLoopAux_trace, initUpdater]
    · simp [closePort_trace, openPort_trace, setProgress_trace,
        sendSetNetworkModuleState_trace, applyNetworkIdFallback_trace,
        getConnectedModuleInfo_trace, warningLoopAux_trace, initUpdater]
  · split at h
    next => simp at h
    next ok st2 info heq =>
        simp only [Option.some.injEq] at h
        subst h
        have key := run_branch_aux _ _ _ _ _ _ _ ok st2 info heq (by
          simp only [warningLoopAux_trace, openPort_trace, closePort_trace,
            sendSetNetworkModuleState_trace, applyNetworkIdFallback_trace,
            getConnectedModuleInfo_trace, setProgress_trace, initUpdater,
            List.singleton_append])
        refine ⟨?_, ?_, ?_⟩
        · show List.Pairwise (· ≤ ·) (setResultError ok (closePort st2)).progressTrace
          rw [setResultError_trace, closePort_trace]
          exact key.1
        · intro hws
          exact absurd hws (by simp)
        · intro _
          show (setResultError ok (closePort st2)).progressTrace.getLast? = some 100
          rw [setResultError_trace, closePort_trace]
          exact key.2
  · split at h
    next => simp at h
    next ok st2 info heq =>
        simp only [Option.some.injEq] at h
        subst h
        have key := run_branch_aux _ _ _ _ _ _ _ ok st2 info heq (by
          simp only [warningLoopAux_trace, openPort_trace, closePort_trace,
            sendSetNetworkModuleState_trace, applyNetworkIdFallback_trace,
            getConnectedModuleInfo_trace, setProgress_trace, initUpdater,
            List.singleton_append])
        refine ⟨?_, ?_, ?_⟩
        · show List.Pairwise (· ≤ ·) (setResultError ok (closePort st2)).progressTrace
          rw [setResultError_trace, closePort_trace]
          exact key.1
        · intro hws
          exact absurd hws (by simp)
        · intro _
          show (setResultError ok (closePort st2)).progressTrace.getLast? = some 100
          rw [setResultError_trace, closePort_trace]
          exact key.2
/-- C4.  Over every read script the transport can actually produce
(`realizableFrom`: monotone timestamps, an empty read only after its
2-second `wait_for_json` timeout), the warning-wait phase fails by
timeout exactly when either 10 seconds elapse overall or 5 consecutive
empty reads occur, a successful read resetting the empty-read count
(`warningClaimTimeout`, the claim's condition); and on that timeout the
update aborts with `update_error = -1`, error message
`"Warning timeout"`, the transport closed and `update_in_progress`
cleared. -/
theorem c4_warning_timeout :
    (∀ (mto : Nat → ModuleType) (t0 : Nat) (evs : List ReadEvent) (st : Updater),
      realizableFrom t0 evs = true →
      (warningLoopAux mto t0 evs 0 st).1 = warningClaimTimeout mto t0 0 evs) ∧
    (∀ (mto : Nat → ModuleType) (fvN fvC : String) (nb cb : List Nat) (ns cs : Nat)
        (evs : List ReadEvent) (t0 fuel : Nat) (r : RunResult),
      runUpdate mto fvN fvC nb cb ns cs evs t0 fuel = some r →
      r.warningTimedOut = true →
      r.final.updateError = -1 ∧ r.final.updateErrorMessage = "Warning timeout" ∧
        r.final.isOpen = false ∧ r.final.updateInProgress = false) := by
  constructor
  · intro mto t0 evs st hr
    exact warningEarly mto t0 evs t0 0 0 st hr (by omega) (by omega) (Nat.le_refl 0)
  · intro mto fvN fvC nb cb ns cs evs t0 fuel r h hwt
    simp only [runUpdate, updateModuleFirmware] at h
    split_ifs at h with hw htn
    · simp only [Option.some.injEq] at h
      subst h
      exact ⟨rfl, rfl, rfl, rfl⟩
    · split at h
      next => simp at h
      next ok st2 info heq =>
        simp only [Option.some.injEq] at h
        subst h
        exact absurd hwt (by simp)
    · split at h
      next => simp at h
      next ok st2 info heq =>
        simp only [Option.some.injEq] at h
        subst h
        exact absurd hwt (by simp)

/-- C4, witness. -/
theorem c4_warning_timeout_witness :
    ((warningLoopAux demoTypeOf 0 c4WitnessEvents 0 (initUpdater [] 0)).1 =
      warningClaimTimeout demoTypeOf 0 0 c4WitnessEvents) ∧
    (timeoutRes.final.updateError = -1 ∧
      timeoutRes.final.updateErrorMessage = "Warning timeout" ∧
      timeoutRes.final.isOpen = false ∧ timeoutRes.final.updateInProgress = false) :=
  ⟨c4_warning_timeout.1 demoTypeOf 0 c4WitnessEvents (initUpdater [] 0) (by decide),
    c4_warning_timeout.2 demoTypeOf "1.2.3" "1.2.3" onePageImage zeroImage2048 4129 2081
      [] 0 10 timeoutRes (by decide) (by decide)⟩

/-- C9, witness. -/
theorem c9_amended_witness :
    List.Pairwise (· ≤ ·) c9WitnessRes.final.progressTrace ∧
    (c9WitnessRes.warningTimedOut = true → c9WitnessRes.final.progressTrace = [0, 0]) ∧
    (c9WitnessRes.warningTimedOut = false →
      c9WitnessRes.final.progressTrace.getLast? = some 100) :=
  c9_amended demoTypeOf "1.2.3" "1.2.3" [] [] 33 33 [] 0 1 c9WitnessRes (by decide)

end ModiFw
